import Mathlib

/-!
Verification of the weibo-hot-analysis rule engine (shallow embedding).

The three Python files `weibo_hot_analyzer.py` (v1), `weibo_analyzer_sdk.py`
(v2.0) and `weibo_analyzer_v2.py` (v2.1) share one deterministic core:
topic classification, template synthesis, seeded pseudo-random scoring,
three-stage timeline generation and score-sorted report assembly. This file
embeds that core and proves/refutes the spec's claims about it.

Modelling conventions:
* Python strings are `String`; `len` is `String.length` (count of code
  points), slicing `s[:n]` is `pyTake`, the substring test `a in b` is
  `pyIn`, `str.split(sep)[0]` is `split_head`.
* The Mersenne-Twister generator behind Python's `random` module is
  abstracted as a state type `σ` with `seedFn` modelling `random.seed` and
  `randint` modelling `random.randint`; `RandintContract` is `randint`'s
  documented contract (a result in `[lo, hi]`).  CPython's builtin `hash`
  on strings is salted per process, so it is a parameter
  `pyHash : String → Int`: one process (one run of the program) corresponds
  to one choice of `pyHash`.
* Python dicts with a fixed literal key set become structures; `dict.get`
  with a default becomes a table lookup with `Option.getD`.
-/

namespace WeiboHot

/-- Python `s[:n]`: the first `n` characters (code points) of `s`. -/
def pyTake (n : Nat) (s : String) : String :=
  ⟨s.data.take n⟩

/-- Substring test on character lists: `sub` occurs contiguously in the list. -/
def isSub (sub : List Char) : List Char → Bool
  | [] => sub.isEmpty
  | c :: cs => sub.isPrefixOf (c :: cs) || isSub sub cs

/-- Python `sub in s` on strings: substring containment. -/
def pyIn (sub s : String) : Bool :=
  isSub sub.data s.data

/-- Python `s.split(sep)[0]`: the text before the first occurrence of `sep`
(`s` itself when `sep` does not occur). -/
def split_head (sep : String) (s : String) : String :=
  (s.splitOn sep).headD s

/-- The `scores` dict built by `calculate_scores` (weibo_hot_analyzer.py:446-456)
and by the two LLM total-computation blocks. -/
structure ScoreSet where
  total : Int
  interest_score : Int
  utility_score : Int
  innovation : Int
  pain_point : Int
  potential : Int
  social : Int
  practicality : Int
  feasibility : Int
deriving DecidableEq

/-- The documented contract of Python's `random.randint(lo, hi)`: a result in
the closed interval `[lo, hi]` (the drawn value may depend on the generator
state in any way). -/
def RandintContract {σ : Type} (randint : σ → Int → Int → Int × σ) : Prop :=
  ∀ s lo hi, lo ≤ hi → lo ≤ (randint s lo hi).1 ∧ (randint s lo hi).1 ≤ hi

/-- weibo_hot_analyzer.py:427-456 `calculate_scores(topic)`.
`random.seed(hash(topic))` replaces the module's ambient generator state `g`
by `seedFn (pyHash topic)` (so `g` is discarded), then the six sub-scores are
drawn by `random.randint` in source order and the derived scores are the
arithmetic sums; `round(x, 1)` on an `int` is the identity. -/
def calculate_scores {σ : Type} (seedFn : Int → σ)
    (randint : σ → Int → Int → Int × σ) (pyHash : String → Int)
    (topic : String) (_g : σ) : ScoreSet :=
  let s0 := seedFn (pyHash topic)
  let r1 := randint s0 15 30
  let r2 := randint r1.2 15 25
  let r3 := randint r2.2 10 15
  let r4 := randint r3.2 5 10
  let interest_score := r1.1 + r2.1 + r3.1 + r4.1
  let r5 := randint r4.2 5 10
  let r6 := randint r5.2 5 10
  let utility_score := r5.1 + r6.1
  { total := interest_score + utility_score
    interest_score := interest_score
    utility_score := utility_score
    innovation := r1.1
    pain_point := r2.1
    potential := r3.1
    social := r4.1
    practicality := r5.1
    feasibility := r6.1 }

/-- A degenerate generator satisfying `RandintContract`: every draw returns the
lower bound. Used to instantiate theorems at concrete inputs. -/
def const_lo_randint (s lo _hi : Int) : Int × Int :=
  (lo, s)

/-- A seed-sensitive generator satisfying `RandintContract`: the draw is
`lo + state % (hi - lo + 1)` and the state advances by one.  It witnesses that
a contract-satisfying generator may give different draws for different seeds,
as the Mersenne Twister does. -/
def seed_offset_randint (s lo hi : Int) : Int × Int :=
  (if lo ≤ hi then lo + s.emod (hi - lo + 1) else lo, s + 1)

/-- The `theme_patterns` ordered table of weibo_hot_analyzer.py:182-191:
category name to representative keywords, in Python dict insertion order. -/
def theme_patterns : List (String × List String) :=
  [("电商零售", ["胖东来", "京东", "淘宝", "天猫", "价格", "商品", "购物", "优惠", "羽绒服", "好物"]),
   ("娱乐影视", ["轧戏", "演员", "电影", "电视剧", "综艺", "明星", "薛之谦", "蔡徐坤", "有歌"]),
   ("游戏", ["世界之外", "第五人格", "游戏", "开大", "王者", "原神", "英雄联盟"]),
   ("科技数码", ["手机", "华为", "小米", "苹果", "芯片", "AI", "发布", "新品"]),
   ("社会热点", ["火灾", "事故", "女孩", "晕倒", "离职", "被封", "争议"]),
   ("汽车", ["汽车", "长城", "特斯拉", "比亚迪", "发布会", "新车"]),
   ("国际", ["韩国", "日本", "美国", "全球", "国际"]),
   ("节日活动", ["新年", "春节", "双11", "618", "大紫大红"])]

/-- The `{"type": ..., "theme": ...}` dict returned by `analyze_topic_keywords`. -/
structure TopicTheme where
  type : String
  theme : String
deriving DecidableEq

/-- weibo_hot_analyzer.py:177-211 `analyze_topic_keywords(topic)`:
first pass returns the first category whose keyword list contains `topic`
verbatim; second pass returns the first category one of whose keywords is a
substring of `topic`; otherwise the defaults `综合资讯`/`热点追踪`.
(The computed `topic_lower` of line 179 is never used by the source.) -/
def analyze_topic_keywords (topic : String) : TopicTheme :=
  match theme_patterns.find? (fun p => p.2.contains topic) with
  | some p => ⟨p.1, p.1⟩
  | none =>
    match theme_patterns.find? (fun p => p.2.any (fun kw => pyIn kw topic)) with
    | some p => ⟨p.1, p.1⟩
    | none => ⟨"综合资讯", "热点追踪"⟩

/-- The `product_names` dict of weibo_hot_analyzer.py:215-224, with the topic
interpolations already applied. -/
def product_names (topic : String) : List (String × String) :=
  [("电商零售", "「" ++ pyTake 6 topic ++ "」智能比价助手"),
   ("娱乐影视", "「" ++ pyTake 6 topic ++ "」影视追踪器"),
   ("游戏", "「" ++ pyTake 6 topic ++ "」游戏攻略社区"),
   ("科技数码", "「" ++ pyTake 6 topic ++ "」评测分析平台"),
   ("社会热点", "「" ++ pyTake 6 topic ++ "」事件追踪报"),
   ("汽车", "「" ++ pyTake 6 topic ++ "」选车决策助手"),
   ("国际", "「" ++ pyTake 6 topic ++ "」全球资讯聚合"),
   ("节日活动", "「" ++ pyTake 6 topic ++ "」活动攻略指南")]

/-- weibo_hot_analyzer.py:213-226 `generate_product_name`. -/
def generate_product_name (topic topic_type _theme : String) : String :=
  ((product_names topic).lookup topic_type).getD
    ("「" ++ pyTake 8 topic ++ "」智能分析助手")

/-- The `features_map` dict of weibo_hot_analyzer.py:230-287.  Entries the
source writes as plain (non-f) strings keep their literal `{topic}` text,
written here with escaped braces. -/
def features_map (topic : String) : List (String × List String) :=
  [("电商零售",
    ["实时价格监控 - 追踪'" ++ topic ++ "'相关商品的价格波动，第一时间通知降价",
     "历史价格走势 - 展示商品过去3个月的价格变化曲线，智能预测最佳购买时机",
     "全网比价功能 - 一键对比京东、淘宝、天猫等平台同款商品价格",
     "品质评价分析 - 基于'" ++ topic ++ "'的用户评价，AI生成真实的质量分析报告",
     "优惠券聚合 - 自动收集各平台相关商品的隐藏优惠券和促销信息"]),
   ("娱乐影视",
    ["影视资讯追踪 - 实时推送'" ++ topic ++ "'相关影视动态、开机消息、播出时间",
     "剧情智能解析 - AI分析剧情走向，提供角色关系图谱和关键情节解读",
     "口碑评分预测 - 基于社交媒体数据，预测影视作品的口碑走向",
     "追剧日程管理 - 自动整理更新时间表，不错过任何一集精彩内容",
     "同好社区互动 - 与关注'\x7btopic\x7d'的观众实时交流讨论"]),
   ("游戏",
    ["游戏攻略库 - 精选'" ++ topic ++ "'最新攻略、隐藏彩蛋、通关技巧",
     "实时战报追踪 - 关注游戏赛事动态，职业选手操作分析",
     "组队匹配系统 - 快速找到志同道合的队友一起游戏",
     "版本更新解读 - 每次更新后第一时间解析改动内容和影响",
     "游戏数据分析 - 个人游戏数据可视化，提供提升建议"]),
   ("科技数码",
    ["深度评测解读 - 针对'" ++ topic ++ "'的专业评测汇总和购买建议",
     "参数对比工具 - 与竞品进行详细参数对比，一目了然",
     "用户真实反馈 - 收集真实用户的使用体验和问题反馈",
     "发布时间提醒 - 新品发布倒计时，第一时间获取购买链接",
     "性价比分析 - 综合价格、性能、口碑计算性价比得分"]),
   ("社会热点",
    ["事件时间线还原 - 梳理'" ++ topic ++ "'的完整发展脉络，关键节点一目了然",
     "多方观点聚合 - 汇集不同立场、不同角度的报道和评论",
     "信息真伪辨析 - AI辅助判断信息真实性，标注不实传闻",
     "影响范围分析 - 展示事件涉及的地域、人群和行业影响",
     "后续跟踪提醒 - 事件有新进展时自动推送更新"]),
   ("汽车",
    ["车型深度对比 - '" ++ topic ++ "'与同级竞品的全方位对比分析",
     "真实车主口碑 - 收集长期使用该车型的真实反馈",
     "购车时机建议 - 分析优惠政策、库存情况，建议最佳购车时间",
     "配置智能推荐 - 根据使用场景推荐最适合的配置组合",
     "用车成本计算 - 包含保险、油耗、保养的全生命周期成本"]),
   ("国际",
    ["多语言资讯聚合 - 收集全球媒体对'" ++ topic ++ "'的不同报道",
     "背景知识科普 - 提供事件相关的历史、地理、政治背景",
     "专家观点解读 - 邀请国际关系专家分析事件深层含义",
     "实时动态推送 - 重大进展第一时间通知",
     "影响预测分析 - 分析事件对各领域可能产生的影响"]),
   ("节日活动",
    ["活动攻略大全 - '" ++ topic ++ "'期间各平台优惠活动整理",
     "省钱方案推荐 - AI计算最优购买组合，最大化省钱",
     "时间轴提醒 - 重要活动节点倒计时提醒",
     "避坑指南 - 基于往年经验，提醒常见套路和陷阱",
     "礼品推荐助手 - 根据预算和对象智能推荐礼物"])]

/-- weibo_hot_analyzer.py:228-295 `generate_core_features_by_topic`. -/
def generate_core_features_by_topic (topic topic_type _theme : String) :
    List String :=
  ((features_map topic).lookup topic_type).getD
    ["智能内容推荐 - AI根据'" ++ topic ++ "'推送最相关的内容",
     "实时动态追踪 - 第一时间获取'\x7btopic\x7d'的最新进展",
     "个性化定制 - 根据用户偏好自定义展示内容",
     "社交互动分享 - 支持一键分享到各大平台",
     "数据可视化看板 - 直观展示关键数据和趋势"]

/-- The `pain_points_map` dict of weibo_hot_analyzer.py:299-356. -/
def pain_points_map (topic : String) : List (String × List String) :=
  [("电商零售",
    ["想了解'" ++ topic ++ "'的真实价格，但不同平台价格差异大，对比耗时耗力",
     "不知道什么时候是最佳购买时机，怕买贵了",
     "商品评价真假难辨，刷单好评混杂，难以判断真实质量",
     "优惠券分散在各个平台，领取和使用流程繁琐",
     "缺乏专业的商品分析，购买决策缺乏数据支撑"]),
   ("娱乐影视",
    ["'" ++ topic ++ "'相关信息分散在各大平台，收集整理麻烦",
     "剧情讨论剧透混杂，想看分析又怕被剧透",
     "影视作品质量参差不齐，浪费时间在烂片上",
     "更新时间不固定，经常错过最新一集",
     "找不到同好交流，独自追剧/追星缺少互动乐趣"]),
   ("游戏",
    ["'" ++ topic ++ "'攻略散落各处，查找困难且质量参差",
     "单排游戏体验差，找不到靠谱的队友",
     "游戏频繁更新，跟不上版本变化导致操作变形",
     "想提升技术但缺乏系统性的学习资源",
     "游戏数据分散，无法直观看到自己的进步"]),
   ("科技数码",
    ["'" ++ topic ++ "'相关评测信息杂乱，专业和客观的内容难找",
     "参数复杂看不懂，不知道哪款更适合自己",
     "用户反馈分散，购买前很难了解真实使用体验",
     "新品发布信息滞后，错过首发优惠",
     "缺乏横向对比，不清楚性价比如何"]),
   ("社会热点",
    ["'" ++ topic ++ "'信息真假难辨，谣言和官方消息混杂",
     "事件报道片面，只看到单方面立场，缺乏全面视角",
     "后续跟进不及时，想知道结果却找不到下文",
     "讨论情绪化严重，理性客观的分析难以发现",
     "缺乏背景知识，看不懂事件的深层含义"]),
   ("汽车",
    ["'" ++ topic ++ "'车型众多，不知道哪款最适合自己的需求",
     "销售话术真假难辨，担心被忽悠",
     "配置复杂选装困难，不知道哪些配置实用",
     "购车时机难把握，怕买早了优惠，买晚了涨价",
     "缺乏真实车主反馈，提车后发现问题"]),
   ("国际",
    ["'" ++ topic ++ "'报道语言障碍，只能看中文二手资讯",
     "缺乏国际背景知识，看不懂事件的来龙去脉",
     "信息来源单一，容易形成片面认知",
     "专业分析门槛高，普通用户难以深入理解",
     "时效性差，重要新闻延迟才能看到"]),
   ("节日活动",
    ["'" ++ topic ++ "'期间活动规则复杂，看半天也搞不清楚",
     "优惠券限制条件多，使用时发现不符合条件",
     "跟风消费后发现不实用，浪费钱",
     "活动信息分散，错过了很多真正优惠的好机会",
     "礼品选择困难，送重复了或者送的不合适"])]

/-- weibo_hot_analyzer.py:297-364 `generate_pain_points_by_topic`. -/
def generate_pain_points_by_topic (topic topic_type _theme : String) :
    List String :=
  ((pain_points_map topic).lookup topic_type).getD
    ["关于'" ++ topic ++ "'的信息分散在各个平台，收集整理耗时",
     "缺乏专业深度分析，只看到表面现象",
     "个性化推荐不足，被无关信息干扰",
     "互动分享体验差，优质内容传播受限",
     "数据可视化不够，关键信息不直观"]

/-- The `user_map` dict of weibo_hot_analyzer.py:368-377. -/
def user_map (topic : String) : List (String × String) :=
  [("电商零售", "关注'" ++ topic ++ "'的网购爱好者，追求高性价比，注重商品真实评价，希望用最优惠的价格买到心仪商品"),
   ("娱乐影视", "关注'" ++ topic ++ "'的影视娱乐爱好者，追剧追星族，喜欢与他人讨论分享，希望获取最新最全的娱乐资讯"),
   ("游戏", "'" ++ topic ++ "'的玩家群体，包括新手和老玩家，希望提升游戏技巧，寻找游戏伙伴，了解游戏最新动态"),
   ("科技数码", "对'" ++ topic ++ "'感兴趣的科技爱好者，注重产品性能和性价比，购买前喜欢做功课研究"),
   ("社会热点", "关注'" ++ topic ++ "'的社会公众，希望了解事件真相和各方观点，追求客观理性的信息"),
   ("汽车", "考虑购买'" ++ topic ++ "'相关车型的消费者，正在选车对比，需要专业的购车建议"),
   ("国际", "关注'" ++ topic ++ "'国际新闻的用户，希望获取多角度的深度报道"),
   ("节日活动", "参与'" ++ topic ++ "'相关活动的用户，希望最大化优惠，获得最佳活动体验")]

/-- weibo_hot_analyzer.py:366-379 `generate_target_users_by_topic`. -/
def generate_target_users_by_topic (topic topic_type : String) : String :=
  ((user_map topic).lookup topic_type).getD
    ("关注'" ++ topic ++ "'话题的用户群体，希望获取相关深度信息和专业分析")

/-- weibo_hot_analyzer.py:381-389 `generate_innovation_points_by_topic`. -/
def generate_innovation_points_by_topic (topic _theme : String) : List String :=
  ["首创针对'" ++ topic ++ "'场景的专业分析模型",
   "AI智能识别关键信息，过滤噪音内容",
   "多维度数据融合，提供全景式视角",
   "实时追踪+历史回溯，完整把握事件脉络",
   "社交化协作，让用户参与内容共建"]

/-- The `market_potential` dict shape shared by all three files. -/
structure MarketPotential where
  market_size : String
  growth_stage : String
  competitive_advantage : String
  revenue_model : String
deriving DecidableEq

/-- weibo_hot_analyzer.py:391-398 `generate_market_potential_by_topic`. -/
def generate_market_potential_by_topic (topic _theme : String) :
    MarketPotential :=
  { market_size := "基于'" ++ topic ++ "'的垂直细分市场，用户基数持续增长"
    growth_stage := "快速成长期，市场潜力大"
    competitive_advantage := "深耕" ++ topic ++ "细分领域，形成专业壁垒"
    revenue_model := "会员订阅+增值服务+精准广告" }

/-- A `{title, url}` record of the search collaborator (`web_search_topic`). -/
structure SearchResult where
  title : String
  url : String
deriving DecidableEq

/-- The `key_info` extraction loop of weibo_hot_analyzer.py:465-473
(`generate_event_timeline`): for the first five results with a non-empty
title, cut the title at the first `_`, `-` or `|`, keep it when its length is
strictly between 10 and 80, stripped. -/
def event_timeline_key_info (search_results : List SearchResult) :
    List String :=
  (search_results.take 5).filterMap (fun r =>
    if r.title = "" then none
    else
      let clean_title := split_head "|" (split_head "-" (split_head "_" r.title))
      if 10 < clean_title.length ∧ clean_title.length < 80 then
        some clean_title.trim
      else none)

/-- weibo_hot_analyzer.py:458-546 `generate_event_timeline(topic,
search_results)`: when at least two usable context snippets exist, compose a
three-clause narrative re-compressed above 100 characters and padded under 50;
otherwise fall through to the ordered keyword chain.  (`timeline_points` and
`topic_lower` of the source are computed but never used.) -/
def generate_event_timeline (topic : String)
    (search_results : List SearchResult) : String :=
  let key_info := event_timeline_key_info search_results
  if search_results.length > 0 ∧ key_info.length ≥ 2 then
    let has_early := key_info.any (fun t =>
      ["曝光", "曝光了", "首次", "爆料", "起因"].any (fun w => pyIn w t))
    let has_develop := key_info.any (fun t =>
      ["回应", "澄清", "进展", "最新", "后续", "发酵"].any (fun w => pyIn w t))
    let has_result := key_info.any (fun t =>
      ["结果", "宣布", "定论", "处罚", "解决"].any (fun w => pyIn w t))
    let parts := ["'" ++ topic ++ "'事件引发关注"]
    let parts := parts ++
      [if has_early then
        "初期" ++ (if (key_info.headD "").length > 30 then
          pyTake 30 (key_info.headD "") else key_info.headD "")
      else "相关内容在网络上开始传播"]
    let parts := parts ++
      [if has_develop then
        "随后" ++ (if (key_info.getD 1 "").length > 30 then
          pyTake 30 (key_info.getD 1 "") else key_info.getD 1 "")
      else "讨论热度持续攀升"]
    let parts := parts ++
      [if has_result then
        "最终" ++ (if (key_info.getLastD "").length > 25 then
          pyTake 25 (key_info.getLastD "") else key_info.getLastD "")
      else "目前事件仍在持续发酵中"]
    let timeline_text := String.intercalate "。" parts ++ "。"
    if timeline_text.length > 100 then
      "'" ++ topic ++ "'引发热议。" ++ pyTake 25 (key_info.headD "") ++
        "...目前持续关注。"
    else if timeline_text.length < 50 then
      timeline_text ++ "相关讨论热度居高不下。"
    else timeline_text
  else if ["价格", "进价", "成本", "售价", "元", "羽绒服", "商品"].any
      (fun w => pyIn w topic) then
    "'" ++ topic ++ "'引发热议。网友热议定价合理性，相关品牌方备受关注。目前话题持续发酵，成为消费热点。"
  else if ["火灾", "事故", "晕倒", "去世", "伤亡", "意外", "韩国火灾"].any
      (fun w => pyIn w topic) then
    "'" ++ topic ++ "'事件令人揪心。相关部门已介入处理，公众持续关注事件进展。具体情况有待进一步通报。"
  else if ["发布", "新品", "上市", "推出", "亮相", "发布会"].any
      (fun w => pyIn w topic) then
    "'" ++ topic ++ "'引发广泛关注。产品亮点成为讨论焦点，市场反响热烈。消费者期待了解更多详情。"
  else if ["道歉", "回应", "澄清", "声明", "解释", "离职"].any
      (fun w => pyIn w topic) then
    "'" ++ topic ++ "'事件持续发酵。涉事方发布声明，公众对此反应不一。事件后续发展仍需关注。"
  else if ["游戏", "开大", "王者", "原神", "第五人格", "世界之外", "英雄联盟"].any
      (fun w => pyIn w topic) then
    "'" ++ topic ++ "'在游戏圈引发热议。玩家讨论游戏玩法和更新内容，社区活跃度显著提升。"
  else if ["明星", "演员", "艺人", "歌手", "综艺", "薛之谦", "蔡徐坤", "轧戏", "有歌"].any
      (fun w => pyIn w topic) then
    "'" ++ topic ++ "'成为娱乐热点。粉丝和网友热烈讨论相关话题，社交媒体热度持续攀升。"
  else if ["新年", "春节", "双11", "618", "活动", "大紫大红"].any
      (fun w => pyIn w topic) then
    "'" ++ topic ++ "'相关活动开启。各大平台推出优惠，消费者积极参与，销售额屡创新高。"
  else if ["汽车", "长城", "特斯拉", "比亚迪", "发布会"].any
      (fun w => pyIn w topic) then
    "'" ++ topic ++ "'引发车圈关注。消费者关注产品性能和价格，期待更多产品细节披露。"
  else
    "'" ++ topic ++ "'话题引发广泛讨论。网友从不同角度表达观点，相关内容在社交平台快速传播，热度持续走高。"

/-- The idea dict built by `mock_ai_analysis` (weibo_hot_analyzer.py:164-173),
in its literal key order. -/
structure IdeaAnalysis where
  name : String
  event_timeline : String
  core_features : List String
  market_pain_points : List String
  target_users : String
  scores : ScoreSet
  innovation_points : List String
  market_potential : MarketPotential
deriving DecidableEq

/-- weibo_hot_analyzer.py:155-175 `mock_ai_analysis(topic, search_results)`:
classify the topic, then fill every field from the category templates and the
seeded scorer.  The generator parameters are those of `calculate_scores`. -/
def mock_ai_analysis {σ : Type} (seedFn : Int → σ)
    (randint : σ → Int → Int → Int × σ) (pyHash : String → Int)
    (topic : String) (search_results : List SearchResult) (g : σ) :
    IdeaAnalysis :=
  let ta := analyze_topic_keywords topic
  { name := generate_product_name topic ta.type ta.theme
    event_timeline := generate_event_timeline topic search_results
    core_features := generate_core_features_by_topic topic ta.type ta.theme
    market_pain_points := generate_pain_points_by_topic topic ta.type ta.theme
    target_users := generate_target_users_by_topic topic ta.type
    scores := calculate_scores seedFn randint pyHash topic g
    innovation_points := generate_innovation_points_by_topic topic ta.theme
    market_potential := generate_market_potential_by_topic topic ta.theme }

/-- One step of the scanner behind `re.findall(r'\d+\.?\d*', s)`: `outside` a
match, inside the integer part, or past the optional decimal point (greedy, so
the point is consumed even with no digit after it).  `acc` holds the current
match reversed. -/
inductive NumScanState where
  | outside : NumScanState
  | intPart (acc : List Char) : NumScanState
  | fracPart (acc : List Char) : NumScanState

/-- Scanner for `re.findall(r'\d+\.?\d*', s)`: leftmost, non-overlapping,
greedy matches.  (`\d` is modelled as the ASCII digits, the only digits the
topics at hand contain.) -/
def findall_num_go : List Char → NumScanState → List String
  | [], .outside => []
  | [], .intPart acc => [String.mk acc.reverse]
  | [], .fracPart acc => [String.mk acc.reverse]
  | c :: cs, .outside =>
    if c.isDigit then findall_num_go cs (.intPart [c])
    else findall_num_go cs .outside
  | c :: cs, .intPart acc =>
    if c.isDigit then findall_num_go cs (.intPart (c :: acc))
    else if c = '.' then findall_num_go cs (.fracPart (c :: acc))
    else String.mk acc.reverse :: findall_num_go cs .outside
  | c :: cs, .fracPart acc =>
    if c.isDigit then findall_num_go cs (.fracPart (c :: acc))
    else String.mk acc.reverse :: findall_num_go cs .outside

/-- Python `re.findall(r'\d+\.?\d*', s)`. -/
def findall_num (s : String) : List String :=
  findall_num_go s.data .outside

/-- Scanner for `re.findall(r'\d+', s)`: maximal runs of digits. -/
def findall_digits_go : List Char → List Char → List String
  | [], acc => if acc.isEmpty then [] else [String.mk acc.reverse]
  | c :: cs, acc =>
    if c.isDigit then findall_digits_go cs (c :: acc)
    else if acc.isEmpty then findall_digits_go cs []
    else String.mk acc.reverse :: findall_digits_go cs []

/-- Python `re.findall(r'\d+', s)`. -/
def findall_digits (s : String) : List String :=
  findall_digits_go s.data []

/-- Python `re.search(r'(a|b|...)', s)` for an alternation of literals:
the match at the leftmost start position wins, and at equal positions the
first alternative in the pattern wins; `none` models a failed search. -/
def re_search_alt (alts : List String) : List Char → Option String
  | [] => none
  | c :: cs =>
    match alts.find? (fun a => a.data.isPrefixOf (c :: cs)) with
    | some a => some a
    | none => re_search_alt alts cs

/-- The `{'cause', 'develop', 'impact'}` dict returned by
`generate_three_stage_timeline`. -/
structure Timeline3 where
  cause : String
  develop : String
  impact : String
deriving DecidableEq

/-- The `key_info` extraction loop of weibo_hot_analyzer.py:1062-1070
(`generate_three_stage_timeline`): first five results, title longer than 10,
cut at the first `_`, `-` or `|` and stripped, kept when its length is
strictly between 8 and 60. -/
def three_stage_key_info (search_results : List SearchResult) : List String :=
  (search_results.take 5).filterMap (fun r =>
    if r.title ≠ "" ∧ r.title.length > 10 then
      let clean_title :=
        (split_head "|" (split_head "-" (split_head "_" r.title))).trim
      if 8 < clean_title.length ∧ clean_title.length < 60 then
        some clean_title
      else none
    else none)

/-- weibo_hot_analyzer.py:1057-1208 `generate_three_stage_timeline(topic,
search_results)`: the context-driven mode when at least two usable snippets
exist, otherwise the ordered keyword chain; every return caps each of the
three strings at 100 characters with `[:100]`. -/
def generate_three_stage_timeline (topic : String)
    (search_results : List SearchResult) : Timeline3 :=
  let key_info := three_stage_key_info search_results
  if search_results.length > 0 ∧ key_info.length ≥ 2 then
    let cause_text := pyTake 40 (key_info.headD "") ++ "成为关注焦点"
    let develop_text := "网友热议" ++
      (if key_info.length > 1 then pyTake 30 (key_info.getD 1 "")
       else "相关话题")
    let impact_text := "事件持续发酵，" ++
      (if key_info.length > 2 then pyTake 30 (key_info.getLastD "")
       else "相关讨论") ++ "热度居高不下"
    { cause := pyTake 100 cause_text
      develop := pyTake 100 develop_text
      impact := pyTake 100 impact_text }
  else if ["胖东来", "价格", "进价", "成本", "羽绒服", "元"].any
      (fun w => pyIn w topic) then
    let numbers := findall_num topic
    let entity :=
      (re_search_alt ["胖东来", "京东", "淘宝", "天猫", "商品"] topic.data).getD
        "品牌方"
    if numbers ≠ [] ∧ pyIn "羽绒服" topic then
      { cause := pyTake 100 (topic ++ "曝光，" ++ entity ++ "商品定价引发热议")
        develop := pyTake 100 ("网友热议'" ++ numbers.headD "" ++ "元'售价与'" ++
          (if numbers.length > 1 then numbers.getD 1 "" else "") ++
          "元'进价的价差")
        impact := pyTake 100 (entity ++ "回应舆论，公众关注商品定价透明度与商业利润") }
    else if numbers ≠ [] then
      { cause := pyTake 100 (topic ++ "价格信息曝光，引发消费者讨论")
        develop := pyTake 100 ("网友热议'" ++ numbers.headD "" ++ "元'的定价合理性")
        impact := pyTake 100 "消费者对价格敏感度提升，相关品牌受到关注" }
    else
      { cause := pyTake 100 (topic ++ "商品定价问题引发关注")
        develop := pyTake 100 "网友对比各平台价格，讨论性价比"
        impact := pyTake 100 "消费观念受到影响，更加注重价格透明度" }
  else if ["轧戏", "薛之谦", "蔡徐坤", "连开", "场", "有歌"].any
      (fun w => pyIn w topic) then
    if pyIn "轧戏" topic then
      { cause := pyTake 100 ("有演员被指'" ++ topic ++ "'，行业潜规则引发讨论")
        develop := pyTake 100 "网友热议演员职业操守和行业规范"
        impact := pyTake 100 "影视行业职业道德受到关注，演员管理规范被讨论" }
    else if pyIn "连开" topic ∧ pyIn "场" topic then
      let numbers := findall_digits topic
      let num := if numbers ≠ [] then numbers.headD "" else "多"
      { cause := pyTake 100 (topic ++ "演唱会官宣，粉丝抢票热情高涨")
        develop := pyTake 100 ("粉丝讨论" ++ num ++ "场演出城市和门票信息")
        impact := pyTake 100 "演出市场复苏，歌手影响力获得关注" }
    else
      { cause := pyTake 100 (topic ++ "成为娱乐热点，粉丝关注")
        develop := pyTake 100 "网友热议相关作品和动态"
        impact := pyTake 100 "艺人/作品热度提升，相关话题持续发酵" }
  else if ["世界之外", "第五人格", "游戏", "开大", "王者", "原神"].any
      (fun w => pyIn w topic) then
    if pyIn "世界之外" topic ∨ pyIn "第五人格" topic then
      let game_name := if pyIn "世界之外" topic then "世界之外" else "第五人格"
      { cause := pyTake 100 (game_name ++ "游戏相关内容引发玩家关注")
        develop := pyTake 100 "玩家讨论游戏玩法、攻略和更新内容"
        impact := pyTake 100 ("游戏社区活跃度提升，" ++ game_name ++ "热度持续走高") }
    else if pyIn "开大" topic then
      { cause := pyTake 100 ("游戏'" ++ topic ++ "'操作或事件引发热议")
        develop := pyTake 100 "玩家分享游戏经验和技巧"
        impact := pyTake 100 "游戏话题出圈，引发更广泛讨论" }
    else
      { cause := pyTake 100 (topic ++ "游戏相关话题引发关注")
        develop := pyTake 100 "玩家讨论游戏内容和玩法"
        impact := pyTake 100 "游戏社区热度提升，相关产品受关注" }
  else if ["3D打印", "器官", "AI", "芯片", "发布", "新品"].any
      (fun w => pyIn w topic) then
    if pyIn "3D打印" topic ∧ pyIn "器官" topic then
      { cause := pyTake 100 (topic ++ "技术突破引发关注")
        develop := pyTake 100 "网友热议医疗科技进展和未来应用"
        impact := pyTake 100 "医疗科技受到关注，公众对生物打印技术讨论增多" }
    else if pyIn "发布" topic ∨ pyIn "新品" topic then
      { cause := pyTake 100 (topic ++ "相关产品发布，引发市场关注")
        develop := pyTake 100 "用户讨论产品性能、价格和购买信息"
        impact := pyTake 100 "相关行业受到影响，市场竞争加剧" }
    else
      { cause := pyTake 100 (topic ++ "科技进展引发关注")
        develop := pyTake 100 "专业人士和用户讨论相关技术"
        impact := pyTake 100 "技术创新受到关注，行业受到影响" }
  else if ["火灾", "事故", "晕倒", "伤亡", "韩国"].any
      (fun w => pyIn w topic) then
    if pyIn "韩国" topic ∧ (pyIn "火灾" topic ∨ pyIn "事故" topic) then
      let numbers := findall_digits topic
      let death_num := if numbers ≠ [] then numbers.headD "" ++ "人" else "多人"
      { cause := pyTake 100 ("韩国发生" ++ topic.replace "韩国" "" ++
          "事故，引发关注")
        develop := pyTake 100 ("事故详情被报道，" ++ death_num ++ "伤亡引发关注")
        impact := pyTake 100 "相关部门介入处理，公众关注事故原因和后续" }
    else
      { cause := pyTake 100 (topic ++ "事件发生，引发公众关注")
        develop := pyTake 100 "媒体报道事件进展，网友持续关注"
        impact := pyTake 100 "事件影响扩散，相关讨论持续发酵" }
  else if ["汽车", "长城", "特斯拉", "比亚迪", "发布会"].any
      (fun w => pyIn w topic) then
    { cause := pyTake 100 (topic ++ "相关话题引发车圈关注")
      develop := pyTake 100 "消费者讨论产品性能、价格和配置"
      impact := pyTake 100 "汽车市场关注度提升，相关品牌受关注" }
  else if ["新年", "春节", "双11", "618", "大紫大红"].any
      (fun w => pyIn w topic) then
    { cause := pyTake 100 (topic ++ "相关活动开启，引发关注")
      develop := pyTake 100 "各大平台推出活动，消费者参与讨论"
      impact := pyTake 100 "消费热度提升，相关话题持续发酵" }
  else if topic.length ≤ 20 then
    { cause := pyTake 100 (topic ++ "成为热门话题")
      develop := pyTake 100 ("网友从不同角度讨论" ++ topic)
      impact := pyTake 100 (topic ++ "相关讨论热度持续，影响扩大") }
  else
    { cause := pyTake 100 (pyTake 20 topic ++ "...引发关注")
      develop := pyTake 100 ("网友热议" ++ pyTake 15 topic ++ "...相关内容")
      impact := pyTake 100 "话题持续发酵，相关讨论热度走高" }

/-- The analysis dict shape of the LLM paths and of v2.1's rule engine:
weibo_analyzer_v2.py:314-355 and the JSON schema both prompts request
(weibo_analyzer_v2.py:216-252, weibo_analyzer_sdk.py:100-139), with the
derived totals filled into `scores`. -/
structure ProductAnalysis where
  name : String
  core_features : List String
  market_pain_points : List String
  target_users : String
  innovation_points : List String
  market_potential : MarketPotential
  scores : ScoreSet
deriving DecidableEq

/-- The `scores` object of a parsed LLM response: the six sub-scores only,
without the derived totals (the schema the prompts request). -/
structure LlmScores where
  innovation : Int
  pain_point : Int
  potential : Int
  social : Int
  practicality : Int
  feasibility : Int
deriving DecidableEq

/-- A successfully parsed LLM JSON response, before the totals are computed. -/
structure LlmParsed where
  name : String
  core_features : List String
  market_pain_points : List String
  target_users : String
  innovation_points : List String
  market_potential : MarketPotential
  scores : LlmScores
deriving DecidableEq

/-- The total-computation block run on a parsed LLM response:
weibo_analyzer_v2.py:276-282 and weibo_analyzer_sdk.py:182-188 (identical):
`interest_score`, `utility_score` and `total` are arithmetic sums of the six
parsed sub-scores (`round(x, 1)` on an `int` is the identity). -/
def fill_llm_totals (s : LlmScores) : ScoreSet :=
  let interest_score := s.innovation + s.pain_point + s.potential + s.social
  let utility_score := s.practicality + s.feasibility
  { total := interest_score + utility_score
    interest_score := interest_score
    utility_score := utility_score
    innovation := s.innovation
    pain_point := s.pain_point
    potential := s.potential
    social := s.social
    practicality := s.practicality
    feasibility := s.feasibility }

/-- The markdown code-fence cleanup run on the raw LLM response text:
weibo_analyzer_v2.py:266-272 and weibo_analyzer_sdk.py:172-178 (identical). -/
def strip_code_fences (result_text : String) : String :=
  let result_text :=
    if result_text.startsWith "```json" then result_text.drop 7
    else result_text
  let result_text :=
    if result_text.startsWith "```" then result_text.drop 3
    else result_text
  let result_text :=
    if result_text.endsWith "```" then result_text.dropRight 3
    else result_text
  result_text.trim

/-- weibo_analyzer_v2.py:310-355 `ZhipuProductAnalyzer._rule_based_analysis`:
`random.seed(hash(topic))`, then the dict literal whose six sub-scores are
drawn by `random.randint` in key order and whose `total`, `interest_score`
and `utility_score` are the literal constants `0` — they are never recomputed
on this path. -/
def v2_rule_based_analysis {σ : Type} (seedFn : Int → σ)
    (randint : σ → Int → Int → Int × σ) (pyHash : String → Int)
    (topic : String) (_search_results : List SearchResult) (_g : σ) :
    ProductAnalysis :=
  let s0 := seedFn (pyHash topic)
  let r1 := randint s0 15 30
  let r2 := randint r1.2 15 25
  let r3 := randint r2.2 10 15
  let r4 := randint r3.2 5 10
  let r5 := randint r4.2 5 10
  let r6 := randint r5.2 5 10
  { name := "「" ++ pyTake 8 topic ++ "」智能助手"
    core_features :=
      ["实时追踪'" ++ topic ++ "'相关动态",
       "AI智能分析与推荐",
       "个性化内容定制",
       "社交互动分享",
       "数据可视化展示"]
    market_pain_points :=
      ["关于'" ++ topic ++ "'的信息分散",
       "缺乏专业深度分析",
       "个性化推荐不足",
       "互动体验差",
       "数据不直观"]
    target_users := "关注'" ++ topic ++ "'的用户群体"
    innovation_points :=
      ["针对'" ++ topic ++ "'的专业分析",
       "AI智能推荐",
       "多维度数据融合",
       "实时追踪",
       "社交化协作"]
    market_potential :=
      { market_size := "基于'" ++ topic ++ "'的垂直市场"
        growth_stage := "成长期"
        competitive_advantage := "专业壁垒"
        revenue_model := "会员+增值服务" }
    scores :=
      { innovation := r1.1
        pain_point := r2.1
        potential := r3.1
        social := r4.1
        practicality := r5.1
        feasibility := r6.1
        total := 0
        interest_score := 0
        utility_score := 0 } }

/-- What the `client.messages.create` call step yields to the rest of the
wrapper: the response text, or an exception from the API call (the wrapper's
generic `except Exception` handler). -/
inductive LlmOutcome where
  | apiError : LlmOutcome
  | response : String → LlmOutcome

/-- weibo_analyzer_v2.py:204-293 `ZhipuProductAnalyzer.analyze_product_idea`:
strip the code fences, parse (`json.loads` is the parameter `parse_json`,
`none` modelling `json.JSONDecodeError`), compute the totals on success; on a
parse failure or an API exception return `_rule_based_analysis` — the
exception handlers at lines 288-293 make the fallback unconditional and
return a value, never re-raising. -/
def v2_analyze_product_idea {σ : Type} (seedFn : Int → σ)
    (randint : σ → Int → Int → Int × σ) (pyHash : String → Int)
    (parse_json : String → Option LlmParsed) (topic : String)
    (search_results : List SearchResult) (outcome : LlmOutcome) (g : σ) :
    ProductAnalysis :=
  match outcome with
  | .apiError =>
    v2_rule_based_analysis seedFn randint pyHash topic search_results g
  | .response txt =>
    match parse_json (strip_code_fences txt) with
    | none =>
      v2_rule_based_analysis seedFn randint pyHash topic search_results g
    | some a =>
      { name := a.name
        core_features := a.core_features
        market_pain_points := a.market_pain_points
        target_users := a.target_users
        innovation_points := a.innovation_points
        market_potential := a.market_potential
        scores := fill_llm_totals a.scores }

/-- The union of the two dict shapes `ClaudeProductAnalyzer
.analyze_product_idea` can return: the parsed LLM record, or (from
`_fallback_analysis`, weibo_analyzer_sdk.py:222-227) the v1 rule engine's
`mock_ai_analysis` record. -/
inductive SdkAnalysisResult where
  | llm : ProductAnalysis → SdkAnalysisResult
  | ruleBased : IdeaAnalysis → SdkAnalysisResult
deriving DecidableEq

/-- weibo_analyzer_sdk.py:89-200 `ClaudeProductAnalyzer.analyze_product_idea`:
identical wrapper structure to v2.1's, except that the fallback
(`_fallback_analysis`) delegates to v1's `mock_ai_analysis`. -/
def sdk_analyze_product_idea {σ : Type} (seedFn : Int → σ)
    (randint : σ → Int → Int → Int × σ) (pyHash : String → Int)
    (parse_json : String → Option LlmParsed) (topic : String)
    (search_results : List SearchResult) (outcome : LlmOutcome) (g : σ) :
    SdkAnalysisResult :=
  match outcome with
  | .apiError =>
    .ruleBased (mock_ai_analysis seedFn randint pyHash topic search_results g)
  | .response txt =>
    match parse_json (strip_code_fences txt) with
    | none =>
      .ruleBased (mock_ai_analysis seedFn randint pyHash topic search_results g)
    | some a =>
      .llm
        { name := a.name
          core_features := a.core_features
          market_pain_points := a.market_pain_points
          target_users := a.target_users
          innovation_points := a.innovation_points
          market_potential := a.market_potential
          scores := fill_llm_totals a.scores }

/-- The per-topic record appended by v1's main loop
(weibo_hot_analyzer.py:1245-1251): `search_results` is stored as a sibling of
`analysis`, not inside it. -/
structure TopicRecord where
  topic : String
  rank : Nat
  hot_score : Int
  search_results : List SearchResult
  analysis : IdeaAnalysis
deriving DecidableEq

/-- The key set of the dict literal `mock_ai_analysis` builds
(weibo_hot_analyzer.py:164-173): every `analysis` value v1's report rendering
sees carries exactly these keys. -/
def mock_ai_analysis_keys : List String :=
  ["name", "event_timeline", "core_features", "market_pain_points",
   "target_users", "scores", "innovation_points", "market_potential"]

/-- Models `analysis.get('search_results', [])` at
weibo_hot_analyzer.py:957: `IdeaAnalysis` records carry exactly
`mock_ai_analysis_keys`, which do not include `"search_results"`, so
`dict.get` always yields the default `[]`. -/
def analysis_get_search_results (_analysis : IdeaAnalysis) :
    List SearchResult :=
  []

/-- The timeline v1's `generate_html_report` renders for one record
(weibo_hot_analyzer.py:957): `generate_three_stage_timeline(topic,
analysis.get('search_results', []))`. -/
def report_timeline (rec : TopicRecord) : Timeline3 :=
  generate_three_stage_timeline rec.topic
    (analysis_get_search_results rec.analysis)

/-- The sort key of `sorted(hot_topics_with_analysis, key=lambda x:
x['analysis']['scores']['total'], reverse=True)`
(weibo_hot_analyzer.py:603-608 and weibo_analyzer_v2.py:434-439). -/
def scores_total (rec : TopicRecord) : Int :=
  rec.analysis.scores.total

/-- One insertion step of the stable descending sort that models Python's
`sorted(..., reverse=True)`: `x` (earlier in the input) goes in front of the
first element whose key is `≤` its own, so it stays before later elements
with an equal key and behind earlier ones. -/
def insert_by_total_desc (x : TopicRecord) :
    List TopicRecord → List TopicRecord
  | [] => [x]
  | y :: ys =>
    if scores_total y ≤ scores_total x then x :: y :: ys
    else y :: insert_by_total_desc x ys

/-- The `sorted_topics` computation of `generate_html_report`
(weibo_hot_analyzer.py:603-608, identically weibo_analyzer_v2.py:434-439):
Python's `sorted` with `key=... ['total']` and `reverse=True` is a stable
descending sort, modelled as an insertion sort from the input's head. -/
def sort_by_total_desc : List TopicRecord → List TopicRecord
  | [] => []
  | x :: xs => insert_by_total_desc x (sort_by_total_desc xs)

theorem const_lo_randint_contract : RandintContract const_lo_randint :=
  fun _ lo _ h => ⟨le_refl lo, h⟩

theorem seed_offset_randint_contract : RandintContract seed_offset_randint := by
  intro s lo hi h
  simp only [seed_offset_randint, if_pos h]
  have hne : hi - lo + 1 ≠ 0 := by omega
  have h0 : 0 ≤ s.emod (hi - lo + 1) := Int.emod_nonneg s hne
  have h1 : s.emod (hi - lo + 1) < hi - lo + 1 :=
    Int.emod_lt_of_pos s (by omega)
  constructor <;> omega

/-- C2: for every topic string and every generator satisfying
`random.randint`'s contract, each sub-score of `calculate_scores` lies in its
documented closed interval, and `total = interest_score + utility_score`
equals the sum of all six sub-scores (with `interest_score` and
`utility_score` the corresponding partial sums). -/
theorem calculate_scores_subscore_ranges_and_sums {σ : Type}
    (seedFn : Int → σ) (randint : σ → Int → Int → Int × σ)
    (pyHash : String → Int) (topic : String) (g : σ)
    (hc : RandintContract randint) :
    let sc := calculate_scores seedFn randint pyHash topic g
    (15 ≤ sc.innovation ∧ sc.innovation ≤ 30) ∧
    (15 ≤ sc.pain_point ∧ sc.pain_point ≤ 25) ∧
    (10 ≤ sc.potential ∧ sc.potential ≤ 15) ∧
    (5 ≤ sc.social ∧ sc.social ≤ 10) ∧
    (5 ≤ sc.practicality ∧ sc.practicality ≤ 10) ∧
    (5 ≤ sc.feasibility ∧ sc.feasibility ≤ 10) ∧
    sc.total = sc.interest_score + sc.utility_score ∧
    sc.total = sc.innovation + sc.pain_point + sc.potential + sc.social +
      sc.practicality + sc.feasibility ∧
    sc.interest_score = sc.innovation + sc.pain_point + sc.potential +
      sc.social ∧
    sc.utility_score = sc.practicality + sc.feasibility := by
  intro sc
  have h1 : 15 ≤ sc.innovation ∧ sc.innovation ≤ 30 :=
    hc (seedFn (pyHash topic)) 15 30 (by omega)
  have h2 : 15 ≤ sc.pain_point ∧ sc.pain_point ≤ 25 :=
    hc (randint (seedFn (pyHash topic)) 15 30).2 15 25 (by omega)
  have h3 : 10 ≤ sc.potential ∧ sc.potential ≤ 15 :=
    hc (randint (randint (seedFn (pyHash topic)) 15 30).2 15 25).2 10 15
      (by omega)
  have h4 : 5 ≤ sc.social ∧ sc.social ≤ 10 :=
    hc (randint (randint (randint (seedFn (pyHash topic)) 15 30).2
      15 25).2 10 15).2 5 10 (by omega)
  have h5 : 5 ≤ sc.practicality ∧ sc.practicality ≤ 10 :=
    hc (randint (randint (randint (randint (seedFn (pyHash topic)) 15 30).2
      15 25).2 10 15).2 5 10).2 5 10 (by omega)
  have h6 : 5 ≤ sc.feasibility ∧ sc.feasibility ≤ 10 :=
    hc (randint (randint (randint (randint (randint (seedFn (pyHash topic))
      15 30).2 15 25).2 10 15).2 5 10).2 5 10).2 5 10 (by omega)
  have hi : sc.interest_score =
      sc.innovation + sc.pain_point + sc.potential + sc.social := rfl
  have hu : sc.utility_score = sc.practicality + sc.feasibility := rfl
  have ht : sc.total = sc.interest_score + sc.utility_score := rfl
  exact ⟨h1, h2, h3, h4, h5, h6, ht, by omega, hi, hu⟩

/-- C2 witness: the theorem instantiated at a concrete topic and a concrete
contract-satisfying generator. -/
theorem calculate_scores_subscore_ranges_and_sums_witness :
    let sc := calculate_scores (fun n => n) const_lo_randint (fun _ => 0)
      "测试" 0
    (15 ≤ sc.innovation ∧ sc.innovation ≤ 30) ∧
    (15 ≤ sc.pain_point ∧ sc.pain_point ≤ 25) ∧
    (10 ≤ sc.potential ∧ sc.potential ≤ 15) ∧
    (5 ≤ sc.social ∧ sc.social ≤ 10) ∧
    (5 ≤ sc.practicality ∧ sc.practicality ≤ 10) ∧
    (5 ≤ sc.feasibility ∧ sc.feasibility ≤ 10) ∧
    sc.total = sc.interest_score + sc.utility_score ∧
    sc.total = sc.innovation + sc.pain_point + sc.potential + sc.social +
      sc.practicality + sc.feasibility ∧
    sc.interest_score = sc.innovation + sc.pain_point + sc.potential +
      sc.social ∧
    sc.utility_score = sc.practicality + sc.feasibility :=
  calculate_scores_subscore_ranges_and_sums (fun n => n) const_lo_randint
    (fun _ => 0) "测试" 0 const_lo_randint_contract

/-- C3 (amended): the derived scores of `calculate_scores` satisfy
`interest_score ∈ [45, 80]`, `utility_score ∈ [10, 20]` and
`total ∈ [55, 100]` — the sums of the sub-score interval endpoints.  The
spec's claimed lower bounds 50 and 60 are not guaranteed by the code: the
sub-score minima sum to 45 and 55. -/
theorem calculate_scores_derived_ranges {σ : Type}
    (seedFn : Int → σ) (randint : σ → Int → Int → Int × σ)
    (pyHash : String → Int) (topic : String) (g : σ)
    (hc : RandintContract randint) :
    let sc := calculate_scores seedFn randint pyHash topic g
    (45 ≤ sc.interest_score ∧ sc.interest_score ≤ 80) ∧
    (10 ≤ sc.utility_score ∧ sc.utility_score ≤ 20) ∧
    (55 ≤ sc.total ∧ sc.total ≤ 100) := by
  intro sc
  have h1 : 15 ≤ sc.innovation ∧ sc.innovation ≤ 30 :=
    hc (seedFn (pyHash topic)) 15 30 (by omega)
  have h2 : 15 ≤ sc.pain_point ∧ sc.pain_point ≤ 25 :=
    hc (randint (seedFn (pyHash topic)) 15 30).2 15 25 (by omega)
  have h3 : 10 ≤ sc.potential ∧ sc.potential ≤ 15 :=
    hc (randint (randint (seedFn (pyHash topic)) 15 30).2 15 25).2 10 15
      (by omega)
  have h4 : 5 ≤ sc.social ∧ sc.social ≤ 10 :=
    hc (randint (randint (randint (seedFn (pyHash topic)) 15 30).2
      15 25).2 10 15).2 5 10 (by omega)
  have h5 : 5 ≤ sc.practicality ∧ sc.practicality ≤ 10 :=
    hc (randint (randint (randint (randint (seedFn (pyHash topic)) 15 30).2
      15 25).2 10 15).2 5 10).2 5 10 (by omega)
  have h6 : 5 ≤ sc.feasibility ∧ sc.feasibility ≤ 10 :=
    hc (randint (randint (randint (randint (randint (seedFn (pyHash topic))
      15 30).2 15 25).2 10 15).2 5 10).2 5 10).2 5 10 (by omega)
  have hi : sc.interest_score =
      sc.innovation + sc.pain_point + sc.potential + sc.social := rfl
  have hu : sc.utility_score = sc.practicality + sc.feasibility := rfl
  have ht : sc.total = sc.interest_score + sc.utility_score := rfl
  refine ⟨⟨?_, ?_⟩, ⟨?_, ?_⟩, ⟨?_, ?_⟩⟩ <;> omega

/-- C3 witness: the amended ranges at a concrete topic and generator. -/
theorem calculate_scores_derived_ranges_witness :
    let sc := calculate_scores (fun n => n) const_lo_randint (fun _ => 0)
      "测试" 0
    (45 ≤ sc.interest_score ∧ sc.interest_score ≤ 80) ∧
    (10 ≤ sc.utility_score ∧ sc.utility_score ≤ 20) ∧
    (55 ≤ sc.total ∧ sc.total ≤ 100) :=
  calculate_scores_derived_ranges (fun n => n) const_lo_randint
    (fun _ => 0) "测试" 0 const_lo_randint_contract

/-- C3 counterexample: the claimed lower bounds `interest_score ≥ 50` and
`total ≥ 60` do not hold for every contract-satisfying generator: when every
`randint` draw returns its lower bound, `interest_score = 45` and
`total = 55`. -/
theorem derived_ranges_claimed_bounds_counterexample :
    ¬ (∀ (σ : Type) (seedFn : Int → σ)
        (randint : σ → Int → Int → Int × σ) (pyHash : String → Int)
        (topic : String) (g : σ),
        RandintContract randint →
        50 ≤ (calculate_scores seedFn randint pyHash topic g).interest_score ∧
        60 ≤ (calculate_scores seedFn randint pyHash topic g).total) := by
  intro h
  have hx := h Int (fun n => n) const_lo_randint (fun _ => 0) "测试" 0
    const_lo_randint_contract
  exact absurd hx (by decide)

/-- C4 (amended): within one process — one choice of CPython's salted string
hash `pyHash` — `calculate_scores` returns bit-identical ScoreSets on every
invocation with the same topic, whatever the ambient generator state, because
`random.seed(hash(topic))` re-seeds the generator before any draw. -/
theorem calculate_scores_deterministic_within_process {σ : Type}
    (seedFn : Int → σ) (randint : σ → Int → Int → Int × σ)
    (pyHash : String → Int) (topic : String) (g₁ g₂ : σ) :
    calculate_scores seedFn randint pyHash topic g₁ =
      calculate_scores seedFn randint pyHash topic g₂ := rfl

/-- C4 counterexample: reproducibility across runs of the program fails.
CPython salts `hash` on strings per process, so two runs are two hash
functions; with a seed-sensitive contract-satisfying generator the two runs
score the same topic differently. -/
theorem cross_run_determinism_counterexample :
    ¬ (∀ (σ : Type) (seedFn : Int → σ)
        (randint : σ → Int → Int → Int × σ)
        (run1_hash run2_hash : String → Int) (topic : String) (g₁ g₂ : σ),
        RandintContract randint →
        calculate_scores seedFn randint run1_hash topic g₁ =
          calculate_scores seedFn randint run2_hash topic g₂) := by
  intro h
  have hx := h Int (fun n => n) seed_offset_randint (fun _ => 0) (fun _ => 1)
    "测试" 0 0 seed_offset_randint_contract
  exact absurd hx (by decide)

/-- C1 (the v2.1 violation): on `_rule_based_analysis`'s path the `total`
field is the literal `0` (as are `interest_score` and `utility_score`) while
the six drawn sub-scores sum to at least 55, so `total` is not the sum of the
sub-scores on this synthesis path. -/
theorem v2_rule_based_total_is_zero_not_sum {σ : Type}
    (seedFn : Int → σ) (randint : σ → Int → Int → Int × σ)
    (pyHash : String → Int) (topic : String)
    (search_results : List SearchResult) (g : σ)
    (hc : RandintContract randint) :
    let sc := (v2_rule_based_analysis seedFn randint pyHash topic
      search_results g).scores
    sc.total = 0 ∧ sc.interest_score = 0 ∧ sc.utility_score = 0 ∧
    55 ≤ sc.innovation + sc.pain_point + sc.potential + sc.social +
      sc.practicality + sc.feasibility ∧
    sc.total ≠ sc.innovation + sc.pain_point + sc.potential + sc.social +
      sc.practicality + sc.feasibility := by
  intro sc
  have h1 : 15 ≤ sc.innovation ∧ sc.innovation ≤ 30 :=
    hc (seedFn (pyHash topic)) 15 30 (by omega)
  have h2 : 15 ≤ sc.pain_point ∧ sc.pain_point ≤ 25 :=
    hc (randint (seedFn (pyHash topic)) 15 30).2 15 25 (by omega)
  have h3 : 10 ≤ sc.potential ∧ sc.potential ≤ 15 :=
    hc (randint (randint (seedFn (pyHash topic)) 15 30).2 15 25).2 10 15
      (by omega)
  have h4 : 5 ≤ sc.social ∧ sc.social ≤ 10 :=
    hc (randint (randint (randint (seedFn (pyHash topic)) 15 30).2
      15 25).2 10 15).2 5 10 (by omega)
  have h5 : 5 ≤ sc.practicality ∧ sc.practicality ≤ 10 :=
    hc (randint (randint (randint (randint (seedFn (pyHash topic)) 15 30).2
      15 25).2 10 15).2 5 10).2 5 10 (by omega)
  have h6 : 5 ≤ sc.feasibility ∧ sc.feasibility ≤ 10 :=
    hc (randint (randint (randint (randint (randint (seedFn (pyHash topic))
      15 30).2 15 25).2 10 15).2 5 10).2 5 10).2 5 10 (by omega)
  have ht : sc.total = 0 := rfl
  have hi : sc.interest_score = 0 := rfl
  have hu : sc.utility_score = 0 := rfl
  exact ⟨ht, hi, hu, by omega, by omega⟩

/-- C1 witness: the v2.1 fallback's zero totals at a concrete topic and
generator. -/
theorem v2_rule_based_total_is_zero_not_sum_witness :
    let sc := (v2_rule_based_analysis (fun n => n) const_lo_randint
      (fun _ => 0) "测试" [] 0).scores
    sc.total = 0 ∧ sc.interest_score = 0 ∧ sc.utility_score = 0 ∧
    55 ≤ sc.innovation + sc.pain_point + sc.potential + sc.social +
      sc.practicality + sc.feasibility ∧
    sc.total ≠ sc.innovation + sc.pain_point + sc.potential + sc.social +
      sc.practicality + sc.feasibility :=
  v2_rule_based_total_is_zero_not_sum (fun n => n) const_lo_randint
    (fun _ => 0) "测试" [] 0 const_lo_randint_contract

/-- C5: when the LLM call raises (`apiError`) or its response text fails to
parse after code-fence stripping, both LLM wrappers return exactly the
respective rule-based analysis of the same topic and context — the fallback
is unconditional and no failure reaches the caller (the wrappers are total
value-returning functions). -/
theorem llm_failure_falls_back_to_rules {σ : Type}
    (seedFn : Int → σ) (randint : σ → Int → Int → Int × σ)
    (pyHash : String → Int) (parse_json : String → Option LlmParsed)
    (topic : String) (search_results : List SearchResult)
    (outcome : LlmOutcome) (g : σ)
    (hfail : ∀ txt, outcome = .response txt →
      parse_json (strip_code_fences txt) = none) :
    v2_analyze_product_idea seedFn randint pyHash parse_json topic
      search_results outcome g =
      v2_rule_based_analysis seedFn randint pyHash topic search_results g ∧
    sdk_analyze_product_idea seedFn randint pyHash parse_json topic
      search_results outcome g =
      .ruleBased (mock_ai_analysis seedFn randint pyHash topic
        search_results g) := by
  cases outcome with
  | apiError => exact ⟨rfl, rfl⟩
  | response txt =>
    have h := hfail txt rfl
    constructor
    · simp only [v2_analyze_product_idea, h]
    · simp only [sdk_analyze_product_idea, h]

/-- C5 witness: a concrete malformed response (`(fun _ => none)` as
`json.loads` failing on the fixed text) falls back to the rule engines. -/
theorem llm_failure_falls_back_to_rules_witness :
    v2_analyze_product_idea (fun n => n) const_lo_randint (fun _ => 0)
      (fun _ => none) "测试" [] (.response "not json") 0 =
      v2_rule_based_analysis (fun n => n) const_lo_randint (fun _ => 0)
        "测试" [] 0 ∧
    sdk_analyze_product_idea (fun n => n) const_lo_randint (fun _ => 0)
      (fun _ => none) "测试" [] (.response "not json") 0 =
      .ruleBased (mock_ai_analysis (fun n => n) const_lo_randint (fun _ => 0)
        "测试" [] 0) :=
  llm_failure_falls_back_to_rules (fun n => n) const_lo_randint (fun _ => 0)
    (fun _ => none) "测试" [] (.response "not json") 0 (fun _ _ => rfl)

/-- C6: a topic that is verbatim equal to a keyword of the static table is
classified as that keyword's category by the exact-match first pass, before
any substring matching. -/
theorem exact_keyword_match_precedence :
    ∀ p ∈ theme_patterns, ∀ kw ∈ p.2,
      analyze_topic_keywords kw = ⟨p.1, p.1⟩ := by
  decide

/-- C6 witness: `发布会` is a 汽车 keyword while `发布` (a 科技数码 keyword,
checked earlier in enumeration order) is a substring of it; the exact match
still wins. -/
theorem exact_keyword_match_precedence_witness :
    pyIn "发布" "发布会" = true ∧
    analyze_topic_keywords "发布会" = ⟨"汽车", "汽车"⟩ :=
  ⟨by decide,
   exact_keyword_match_precedence
     ("汽车", ["汽车", "长城", "特斯拉", "比亚迪", "发布会", "新车"])
     (by decide) "发布会" (by decide)⟩

/-- C9: the rule-based synthesizer on the empty topic string: it is
classified as the General category (`综合资讯`) and the resulting record has
every string field non-empty and every string-list field a non-empty list of
non-empty strings (the embedding is a total function, so no error is
raised). -/
theorem mock_ai_analysis_empty_topic_nonempty_fields {σ : Type}
    (seedFn : Int → σ) (randint : σ → Int → Int → Int × σ)
    (pyHash : String → Int) (g : σ) :
    analyze_topic_keywords "" = ⟨"综合资讯", "热点追踪"⟩ ∧
    (mock_ai_analysis seedFn randint pyHash "" [] g).name ≠ "" ∧
    (mock_ai_analysis seedFn randint pyHash "" [] g).event_timeline ≠ "" ∧
    (mock_ai_analysis seedFn randint pyHash "" [] g).target_users ≠ "" ∧
    (mock_ai_analysis seedFn randint pyHash "" [] g).core_features ≠ [] ∧
    (∀ f ∈ (mock_ai_analysis seedFn randint pyHash "" [] g).core_features,
      f ≠ "") ∧
    (mock_ai_analysis seedFn randint pyHash "" [] g).market_pain_points
      ≠ [] ∧
    (∀ f ∈ (mock_ai_analysis seedFn randint pyHash "" []
      g).market_pain_points, f ≠ "") ∧
    (mock_ai_analysis seedFn randint pyHash "" [] g).innovation_points
      ≠ [] ∧
    (∀ f ∈ (mock_ai_analysis seedFn randint pyHash "" []
      g).innovation_points, f ≠ "") ∧
    (mock_ai_analysis seedFn randint pyHash "" []
      g).market_potential.market_size ≠ "" ∧
    (mock_ai_analysis seedFn randint pyHash "" []
      g).market_potential.growth_stage ≠ "" ∧
    (mock_ai_analysis seedFn randint pyHash "" []
      g).market_potential.competitive_advantage ≠ "" ∧
    (mock_ai_analysis seedFn randint pyHash "" []
      g).market_potential.revenue_model ≠ "" := by
  simp only [mock_ai_analysis]
  refine ⟨by decide, ?_, ?_, ?_, ?_, ?_, ?_, ?_, ?_, ?_, ?_, ?_, ?_, ?_⟩ <;>
    decide

/-- C10: v1's report rendering looks search results up inside the `analysis`
dict (`analysis.get('search_results', [])`), but the main loop stores them as
a sibling key, and `mock_ai_analysis` never puts a `search_results` key into
the analysis dict; so for every record the rendered three-stage timeline
equals the timeline computed with the empty search-result list, and the
context-driven mode is never exercised from the report path. -/
theorem report_timeline_ignores_search_results :
    "search_results" ∉ mock_ai_analysis_keys ∧
    ∀ rec : TopicRecord,
      report_timeline rec = generate_three_stage_timeline rec.topic [] :=
  ⟨by decide, fun _ => rfl⟩

theorem pyTake_length_le (n : Nat) (s : String) : (pyTake n s).length ≤ n := by
  show (s.data.take n).length ≤ n
  simp [List.length_take]

/-- C8: every branch of the three-stage timeline generator — context-driven
and each keyword-driven fallback — caps `cause`, `develop` and `impact` at
100 characters. -/
theorem three_stage_timeline_length_le_100 (topic : String)
    (search_results : List SearchResult) :
    (generate_three_stage_timeline topic search_results).cause.length
      ≤ 100 ∧
    (generate_three_stage_timeline topic search_results).develop.length
      ≤ 100 ∧
    (generate_three_stage_timeline topic search_results).impact.length
      ≤ 100 := by
  unfold generate_three_stage_timeline
  dsimp only
  repeat' split
  all_goals
    exact ⟨pyTake_length_le _ _, pyTake_length_le _ _, pyTake_length_le _ _⟩

theorem insert_by_total_desc_perm (x : TopicRecord) (l : List TopicRecord) :
    (insert_by_total_desc x l).Perm (x :: l) := by
  induction l with
  | nil => exact List.Perm.refl _
  | cons y ys ih =>
    by_cases h : scores_total y ≤ scores_total x
    · simp [insert_by_total_desc, h]
    · simp only [insert_by_total_desc, if_neg h]
      exact (ih.cons y).trans (List.Perm.swap x y ys)

theorem insert_by_total_desc_pairwise (x : TopicRecord)
    (l : List TopicRecord)
    (hl : l.Pairwise (fun a b => scores_total b ≤ scores_total a)) :
    (insert_by_total_desc x l).Pairwise
      (fun a b => scores_total b ≤ scores_total a) := by
  induction l with
  | nil => simp [insert_by_total_desc]
  | cons y ys ih =>
    rw [List.pairwise_cons] at hl
    obtain ⟨hy, hys⟩ := hl
    by_cases h : scores_total y ≤ scores_total x
    · simp only [insert_by_total_desc, if_pos h]
      rw [List.pairwise_cons]
      refine ⟨?_, ?_⟩
      · intro b hb
        rcases List.mem_cons.mp hb with rfl | hb'
        · exact h
        · exact le_trans (hy b hb') h
      · rw [List.pairwise_cons]
        exact ⟨hy, hys⟩
    · simp only [insert_by_total_desc, if_neg h]
      rw [List.pairwise_cons]
      refine ⟨?_, ih hys⟩
      intro b hb
      have hmem := (insert_by_total_desc_perm x ys).mem_iff.mp hb
      rcases List.mem_cons.mp hmem with rfl | hb'
      · exact le_of_not_le h
      · exact hy b hb'

theorem insert_by_total_desc_filter (x : TopicRecord)
    (l : List TopicRecord) (v : Int) :
    (insert_by_total_desc x l).filter
      (fun r => decide (scores_total r = v)) =
    if scores_total x = v then
      x :: l.filter (fun r => decide (scores_total r = v))
    else l.filter (fun r => decide (scores_total r = v)) := by
  induction l with
  | nil =>
    by_cases hx : scores_total x = v <;>
      simp [insert_by_total_desc, List.filter_cons, hx]
  | cons y ys ih =>
    by_cases hyx : scores_total y ≤ scores_total x
    · simp only [insert_by_total_desc, if_pos hyx]
      by_cases hx : scores_total x = v <;> simp [List.filter_cons, hx]
    · simp only [insert_by_total_desc, if_neg hyx]
      by_cases hy : scores_total y = v
      · have hx : ¬ scores_total x = v := by omega
        simp [List.filter_cons, hy, hx, ih]
      · by_cases hx : scores_total x = v <;>
          simp [List.filter_cons, hy, hx, ih]

theorem sort_by_total_desc_filter (l : List TopicRecord) (v : Int) :
    (sort_by_total_desc l).filter (fun r => decide (scores_total r = v)) =
      l.filter (fun r => decide (scores_total r = v)) := by
  induction l with
  | nil => rfl
  | cons x xs ih =>
    rw [sort_by_total_desc, insert_by_total_desc_filter]
    by_cases hx : scores_total x = v <;> simp [List.filter_cons, hx, ih]

/-- C7: the report assembler's sort orders records by `total` descending
(`Pairwise`), keeps records with equal totals in their original relative
order (the filter at every total value is unchanged — a stable sort), and is
a permutation of its input. -/
theorem sort_by_total_desc_sorted_stable (l : List TopicRecord) :
    (sort_by_total_desc l).Pairwise
      (fun a b => scores_total b ≤ scores_total a) ∧
    (∀ v : Int,
      (sort_by_total_desc l).filter (fun r => decide (scores_total r = v)) =
        l.filter (fun r => decide (scores_total r = v))) ∧
    (sort_by_total_desc l).Perm l := by
  refine ⟨?_, fun v => sort_by_total_desc_filter l v, ?_⟩
  · induction l with
    | nil => simp [sort_by_total_desc]
    | cons x xs ih => exact insert_by_total_desc_pairwise x _ ih
  · induction l with
    | nil => exact List.Perm.refl _
    | cons x xs ih =>
      exact (insert_by_total_desc_perm x _).trans (ih.cons x)

end WeiboHot
